import Mathlib

/-!
Shallow embedding of the session/conversation lifecycle layer of the
Reflex-AgentGroupChat repository:

* `src/reflex_chat/utils/token_manager.py` — the Token/Condition Registry
  (`TokenManager` and its operations), and
* `src/reflex_chat/states/chat_state.py` — the session data model
  (`ChatSession`, `Message`), the Session Manager event handlers
  (`create_chat`, `delete_chat`, `switch_chat`, `submit_message`,
  `add_message_to_current_session`) and the Conversation Driver
  (`start_chat` together with the `get_user_input` polling callback).

Python dictionaries are modelled as insertion-ordered association lists with
unique keys; Python object truthiness of strings is modelled explicitly
(`none` and `some ""` are both falsy for the mailbox).  The external
multi-agent library (autogen) is opaque: its handles are modelled as small
records carrying exactly the flags the repository reads and writes
(`CancellationToken.cancelled`, `ExternalTermination.terminated`), and a
driver run is modelled by the finite script of events the streaming run
yields together with its outcome (normal completion with a saved state
blob, or a raised Python exception).  `asyncio.CancelledError` derives from
`BaseException`, not `Exception`, so an `except Exception` clause does not
catch it; the embedding keeps that distinction in `PyExc`.
-/

namespace ReflexChat

/-! ### Python dict operations on insertion-ordered association lists -/

/-- Lookup in a Python dict (`d.get(k)` / `d[k]`). -/
def dictGet {α : Type} : List (String × α) → String → Option α
  | [], _ => none
  | (k0, v) :: rest, k => if k0 = k then some v else dictGet rest k

/-- Assignment `d[k] = v` in a Python dict: overwrite in place if the key is
present, append at the end otherwise. -/
def dictSet {α : Type} : List (String × α) → String → α → List (String × α)
  | [], k, v => [(k, v)]
  | (k0, v0) :: rest, k, v =>
      if k0 = k then (k, v) :: rest else (k0, v0) :: dictSet rest k v

/-- Mutating the object stored under key `k` in place (the Python code
fetches the stored object and calls a method that mutates it; the dict keeps
holding the same, now-mutated, object). -/
def dictUpdate {α : Type} : List (String × α) → String → (α → α) → List (String × α)
  | [], _, _ => []
  | (k0, v0) :: rest, k, f =>
      if k0 = k then (k0, f v0) :: dictUpdate rest k f
      else (k0, v0) :: dictUpdate rest k f

/-- Removal of a key (`del d[k]`, or the filtering dict comprehension used
for `chat_sessions`). -/
def dictErase {α : Type} : List (String × α) → String → List (String × α)
  | [], _ => []
  | (k0, v0) :: rest, k =>
      if k0 = k then dictErase rest k else (k0, v0) :: dictErase rest k

theorem dictGet_dictSet_self {α : Type} (m : List (String × α)) (k : String) (v : α) :
    dictGet (dictSet m k v) k = some v := by
  induction m with
  | nil => simp [dictSet, dictGet]
  | cons p rest ih =>
    obtain ⟨k0, v0⟩ := p
    by_cases h : k0 = k
    · simp [dictSet, dictGet, h]
    · simp [dictSet, dictGet, h, ih]

theorem dictGet_dictUpdate_self {α : Type} (m : List (String × α)) (k : String) (f : α → α) :
    dictGet (dictUpdate m k f) k = (dictGet m k).map f := by
  induction m with
  | nil => simp [dictUpdate, dictGet]
  | cons p rest ih =>
    obtain ⟨k0, v0⟩ := p
    by_cases h : k0 = k
    · simp [dictUpdate, dictGet, h]
    · simp [dictUpdate, dictGet, h, ih]

theorem dictGet_dictErase_self {α : Type} (m : List (String × α)) (k : String) :
    dictGet (dictErase m k) k = none := by
  induction m with
  | nil => simp [dictErase, dictGet]
  | cons p rest ih =>
    obtain ⟨k0, v0⟩ := p
    by_cases h : k0 = k
    · simp [dictErase, dictGet, h, ih]
    · simp [dictErase, dictGet, h, ih]

/-! ### Handles of the external library (opaque collaborators)

Only the operations the repository itself performs are modelled:
`CancellationToken.cancel()`, `ExternalTermination.set()`, reading
`ExternalTermination.terminated`, and the `termination.cancel()` call the
driver makes on normal completion. -/

structure CancellationToken where
  cancelled : Bool := false
  deriving Repr, DecidableEq

/-- `token.cancel()` on the library handle. -/
def CancellationToken.cancel (t : CancellationToken) : CancellationToken :=
  { t with cancelled := true }

structure ExternalTermination where
  terminated : Bool := false
  cancelledFlag : Bool := false
  deriving Repr, DecidableEq

/-- `termination.set()` on the library handle: request a graceful stop. -/
def ExternalTermination.set (t : ExternalTermination) : ExternalTermination :=
  { t with terminated := true }

/-- The `termination.cancel()` call made by `start_chat` on normal stream
completion.  It acts on the handle object only; it does not touch the
registry's key set. -/
def ExternalTermination.cancelHandle (t : ExternalTermination) : ExternalTermination :=
  { t with cancelledFlag := true }

/-! ### Token/Condition Registry (`token_manager.py`) -/

structure TokenManager where
  cancellationTokens : List (String × CancellationToken) := []
  terminationConditions : List (String × ExternalTermination) := []
  deriving Repr, DecidableEq

/-- `TokenManager.store_cancellation_token`: `self._cancellation_tokens[session_id] = token`. -/
def TokenManager.store_cancellation_token (m : TokenManager) (id : String)
    (t : CancellationToken) : TokenManager :=
  { m with cancellationTokens := dictSet m.cancellationTokens id t }

/-- `TokenManager.get_cancellation_token`: `self._cancellation_tokens.get(session_id)`. -/
def TokenManager.get_cancellation_token (m : TokenManager) (id : String) :
    Option CancellationToken :=
  dictGet m.cancellationTokens id

/-- `TokenManager.remove_cancellation_token`: `del` guarded by a membership test. -/
def TokenManager.remove_cancellation_token (m : TokenManager) (id : String) : TokenManager :=
  if (dictGet m.cancellationTokens id).isSome then
    { m with cancellationTokens := dictErase m.cancellationTokens id }
  else m

/-- `TokenManager.cancel_session`: fetch the token; if present call
`token.cancel()` (mutating the object the dict holds) and return `True`,
otherwise return `False`. -/
def TokenManager.cancel_session (m : TokenManager) (id : String) : TokenManager × Bool :=
  match dictGet m.cancellationTokens id with
  | some _ =>
      ({ m with cancellationTokens :=
          dictUpdate m.cancellationTokens id CancellationToken.cancel }, true)
  | none => (m, false)

/-- `TokenManager.store_termination_condition`: `self._termination_conditions[session_id] = termination`. -/
def TokenManager.store_termination_condition (m : TokenManager) (id : String)
    (t : ExternalTermination) : TokenManager :=
  { m with terminationConditions := dictSet m.terminationConditions id t }

/-- `TokenManager.get_termination_condition`: `self._termination_conditions.get(session_id)`. -/
def TokenManager.get_termination_condition (m : TokenManager) (id : String) :
    Option ExternalTermination :=
  dictGet m.terminationConditions id

/-- `TokenManager.remove_termination_condition`: `del` guarded by a membership test. -/
def TokenManager.remove_termination_condition (m : TokenManager) (id : String) : TokenManager :=
  if (dictGet m.terminationConditions id).isSome then
    { m with terminationConditions := dictErase m.terminationConditions id }
  else m

/-- `TokenManager.terminate_session`: fetch the condition; if present call
`termination.set()` and return `True`, otherwise return `False`. -/
def TokenManager.terminate_session (m : TokenManager) (id : String) : TokenManager × Bool :=
  match dictGet m.terminationConditions id with
  | some _ =>
      ({ m with terminationConditions :=
          dictUpdate m.terminationConditions id ExternalTermination.set }, true)
  | none => (m, false)

/-! ### Data model of `chat_state.py` -/

/-- `Message` (`chat_state.py`): `source`, `content` and the constant
`type` field.  The unused optional `models_usage` / `metadata` fields are
never written by the repository and are omitted. -/
structure Message where
  source : String
  content : String
  type : String := "TextMessage"
  deriving Repr, DecidableEq

/-- The opaque continuation-state blob (`team_state: Dict[str, Dict[str, str]]`
in the source); only its Python truthiness (empty vs non-empty) is observed
by the repository, so it is modelled as an association-list blob. -/
abbrev TeamState := List (String × String)

/-- `ChatSession`.  `submitted_message` is declared `str = ""` in the source
but `get_user_input` assigns `None` into it; it is modelled as
`Option String`, with both `none` and `some ""` falsy. -/
structure ChatSession where
  id : String
  name : String
  messages : List Message := []
  is_initialized : Bool := false
  submitted_message : Option String := some ""
  initial_message : String := ""
  team_state : TeamState := []
  deriving Repr, DecidableEq

/-- The per-client reactive state of `ChatState` (the fields the lifecycle
layer reads and writes). -/
structure ChatState where
  chat_sessions : List (String × ChatSession) := []
  current_chat_id : String := ""
  show_modal : Bool := false
  new_chat_name : String := ""
  is_processing : Bool := false
  user_message : String := ""
  scroll_flag : Bool := false
  deriving Repr, DecidableEq

/-- `ChatState.current_session`: `self.chat_sessions.get(self.current_chat_id)`. -/
def ChatState.current_session (s : ChatState) : Option ChatSession :=
  dictGet s.chat_sessions s.current_chat_id

/-- Attribute assignment `self.current_session.f = v` in the source: the
session object fetched under `current_chat_id` is mutated in place.  (The
source would raise `AttributeError` when `current_session` is `None`; every
use below is guarded by a `current_session` check, mirrored as an `isSome`
hypothesis in the theorems.) -/
def ChatState.updateCurrent (s : ChatState) (f : ChatSession → ChatSession) : ChatState :=
  { s with chat_sessions := dictUpdate s.chat_sessions s.current_chat_id f }

/-- `ChatState.set_user_message` / `on_message_input`. -/
def ChatState.set_user_message (s : ChatState) (m : String) : ChatState :=
  { s with user_message := m }

/-- `ChatState.add_message_to_current_session`: return early when there is no
current session (the source logs an error), otherwise append the message to
the current session's list and toggle the scroll flag. -/
def ChatState.add_message_to_current_session (s : ChatState) (m : Message) : ChatState :=
  match s.current_session with
  | none => s
  | some _ =>
      { s with
        chat_sessions := dictUpdate s.chat_sessions s.current_chat_id
          (fun cs => { cs with messages := cs.messages ++ [m] }),
        scroll_flag := !s.scroll_flag }

/-- `ChatState.create_chat`: a fresh session (named `new_chat_name`, or
`"Untitled"` when that is empty) is inserted and becomes current; the modal
UI state is reset.  The fresh uuid is passed in as a parameter. -/
def ChatState.create_chat (s : ChatState) (newId : String) : ChatState :=
  let name := if s.new_chat_name = "" then "Untitled" else s.new_chat_name
  { s with
    chat_sessions := dictSet s.chat_sessions newId { id := newId, name := name },
    current_chat_id := newId,
    new_chat_name := "",
    show_modal := false }

/-- `ChatState.submit_message`: store the typed message into the current
session's single-slot mailbox (`submitted_message`), set the processing
flag, append the user `Message` to the chat, and clear the input field.
(The source dereferences `self.current_session` unguarded; a missing current
session would raise `AttributeError`, modelled as `none`.) -/
def ChatState.submit_message (s : ChatState) : Option ChatState :=
  match s.current_session with
  | none => none
  | some _ =>
      let s1 := s.updateCurrent fun c => { c with submitted_message := some s.user_message }
      let s2 := { s1 with is_processing := true }
      let userMsg : Message := { source := "user", content := s.user_message }
      let s3 := s2.add_message_to_current_session userMsg
      some { s3 with user_message := "" }

/-! ### Combined application state

Registry calls made by the lifecycle operations are also recorded in an
event trace, so that call order (terminate before cancel) is visible to the
theorems. -/

inductive RegEvent where
  | terminateReq (id : String)
  | cancelReq (id : String)
  | removeTermination (id : String)
  | removeCancellation (id : String)
  deriving Repr, DecidableEq

structure App where
  chat : ChatState := {}
  tokens : TokenManager := {}
  events : List RegEvent := []
  deriving Repr, DecidableEq

/-- `token_manager.terminate_session(id)` as invoked from `chat_state.py`,
with the call recorded in the trace. -/
def App.terminate_session (a : App) (id : String) : App :=
  { a with
    tokens := (a.tokens.terminate_session id).1,
    events := a.events ++ [RegEvent.terminateReq id] }

/-- `token_manager.cancel_session(id)` as invoked from `chat_state.py`. -/
def App.cancel_session (a : App) (id : String) : App :=
  { a with
    tokens := (a.tokens.cancel_session id).1,
    events := a.events ++ [RegEvent.cancelReq id] }

/-- `token_manager.remove_termination_condition(id)` as invoked from
`chat_state.py`. -/
def App.remove_termination_condition (a : App) (id : String) : App :=
  { a with
    tokens := a.tokens.remove_termination_condition id,
    events := a.events ++ [RegEvent.removeTermination id] }

/-- `token_manager.remove_cancellation_token(id)` as invoked from
`chat_state.py`. -/
def App.remove_cancellation_token (a : App) (id : String) : App :=
  { a with
    tokens := a.tokens.remove_cancellation_token id,
    events := a.events ++ [RegEvent.removeCancellation id] }

/-- `ChatState.switch_chat`: reject an unknown id (state unchanged); no-op
when the id is already current; otherwise, if a current session exists,
terminate then cancel its run via the registry, then set the new id as
current. -/
def App.switch_chat (a : App) (chat_id : String) : App :=
  if (dictGet a.chat.chat_sessions chat_id).isNone then a
  else if chat_id = a.chat.current_chat_id then a
  else
    let a1 :=
      match a.chat.current_session with
      | some cs => (a.terminate_session cs.id).cancel_session cs.id
      | none => a
    { a1 with chat := { a1.chat with current_chat_id := chat_id } }

/-- `ChatState.delete_chat`: reject an unknown id; otherwise terminate then
cancel the session's run via the registry, remove its registry entries,
remove the session, and fix up the current pointer.  When the deleted
session was current and no session remains, the source sets
`current_chat_id` to `""` and then calls `self.create_chat()` WITHOUT
awaiting it: `create_chat` is an async method, the returned coroutine is
never run, so no fresh session is actually created. -/
def App.delete_chat (a : App) (chat_id : String) : App :=
  if (dictGet a.chat.chat_sessions chat_id).isNone then a
  else
    let a1 := a.terminate_session chat_id
    let a2 := a1.cancel_session chat_id
    let a3 := a2.remove_termination_condition chat_id
    let a4 := a3.remove_cancellation_token chat_id
    let c1 := { a4.chat with chat_sessions := dictErase a4.chat.chat_sessions chat_id }
    let c2 :=
      if c1.current_chat_id = chat_id then
        match c1.chat_sessions with
        | [] => { c1 with current_chat_id := "" }
        | (k, _) :: _ => { c1 with current_chat_id := k }
      else c1
    { a4 with chat := c2 }

/-! ### Python exceptions

`asyncio.CancelledError` derives from `BaseException` (Python ≥ 3.8), so an
`except Exception` clause does not catch it; every other error raised by
the repository or its collaborators is an `Exception` subclass. -/

inductive PyExc where
  | cancelledError (msg : String)
  | exc (msg : String)
  deriving Repr, DecidableEq

def PyExc.isExceptionClass : PyExc → Bool
  | .cancelledError _ => false
  | .exc _ => true

def PyExc.msg : PyExc → String
  | .cancelledError m => m
  | .exc m => m

/-! ### Conversation Driver (`ChatState.start_chat`)

The external streaming run is modelled by the finite script of items it
yields.  An item is a `TaskResult`, a `UserInputRequestedEvent`, or any
other event, carrying its optional `content` / `source` attributes (the
source extracts them with `getattr(message, "content", str(message))` and
`getattr(message, "source", "system")`) plus its `str()` representation. -/

inductive StreamEvent where
  | taskResult
  | userInputRequested
  | agentMessage (source content : Option String) (reprStr : String)
  deriving Repr, DecidableEq

inductive StreamOutcome where
  | completed (saved : TeamState)
  | raised (e : PyExc)
  deriving Repr, DecidableEq

/-- A whole driver run, as scheduled by the outside world: either `get_team`
itself raises (e.g. a missing model config — after the termination handle
was already stored, since storing it is the first thing `get_team` does),
or the stream yields `events` and then finishes with `outcome`. -/
inductive RunScript where
  | initRaised (e : PyExc)
  | streamRun (events : List StreamEvent) (outcome : StreamOutcome)
  deriving Repr, DecidableEq

/-- How a call to `start_chat` ends: a normal return, or an uncaught
exception (only possible for a non-`Exception` raise such as
`asyncio.CancelledError`) propagating with the state left behind. -/
inductive DriverResult where
  | normal (a : App)
  | uncaught (e : PyExc) (a : App)
  deriving Repr, DecidableEq

def DriverResult.isNormal : DriverResult → Bool
  | .normal _ => true
  | .uncaught _ _ => false

def DriverResult.state : DriverResult → App
  | .normal a => a
  | .uncaught _ a => a

/-- The `async for message in stream` loop body of `start_chat`:
a `TaskResult` is skipped; a `UserInputRequestedEvent` clears the
processing flag without appending; any other event is converted to a
`Message` (content and source extracted with `getattr` defaults) and
appended to the current session. -/
def processEvent (s : ChatState) (ev : StreamEvent) : ChatState :=
  match ev with
  | .taskResult => s
  | .userInputRequested => { s with is_processing := false }
  | .agentMessage src cnt rep =>
      s.add_message_to_current_session { source := src.getD "system", content := cnt.getD rep }

/-- The system `Message` appended by the `except Exception` clause of
`start_chat` (`f"Failed to initialize chat: ..."` with `str(e)`). -/
def errorMessage (err : String) : Message :=
  { source := "system", content := "Failed to initialize chat: " ++ err }

/-- The `except Exception` / `finally` tail of `start_chat`: an
`Exception`-class error is caught, converted into a system message, and the
processing flag is cleared (in the handler and again in `finally`); a
`BaseException` such as `asyncio.CancelledError` is not caught, the
`finally` block still clears the processing flag, and the exception
propagates out of `start_chat`. -/
def handleRaised (a : App) (e : PyExc) : DriverResult :=
  if e.isExceptionClass then
    let c1 := a.chat.add_message_to_current_session (errorMessage e.msg)
    .normal { a with chat := { c1 with is_processing := false } }
  else
    .uncaught e { a with chat := { a.chat with is_processing := false } }

/-- The opening `async with self` block of `start_chat`: mark the current
session initialized and set the processing flag. -/
def ChatState.markStarted (s : ChatState) : ChatState :=
  { s.updateCurrent (fun c => { c with is_initialized := true }) with is_processing := true }

/-- First part of the `try` body: `get_team` stores the freshly created
termination handle in the registry under the current session id. -/
def prepareRun (a : App) (sid : String) (tm : ExternalTermination) : App :=
  { a with chat := a.chat.markStarted, tokens := a.tokens.store_termination_condition sid tm }

/-- The default opening task used when the typed message is blank
(the literal `"Let's start a conversation"` in the source). -/
def defaultTask : String := "Let" ++ String.mk [Char.ofNat 39] ++ "s start a conversation"

/-- `initial_content = self.user_message.strip() if self.user_message.strip() else "..."`. -/
def initialContent (s : ChatState) : String :=
  if s.user_message.trim = "" then defaultTask else s.user_message.trim

/-- Recording `initial_content` into the session (`self.current_session.initial_message = ...`). -/
def setInitialMessage (s : ChatState) : ChatState :=
  s.updateCurrent fun c => { c with initial_message := initialContent s }

/-- Folding the stream's yielded items through the loop body. -/
def runStreamEvents (s : ChatState) (events : List StreamEvent) : ChatState :=
  events.foldl processEvent s

/-- The normal-completion tail of `start_chat`: save the library state into
the session (once conditionally on the truthiness of `state`, then again
unconditionally), call `termination.cancel()` on the handle object (the
registry holds that same object; its key set is untouched — no
`remove_termination_condition` / `remove_cancellation_token` call appears on
this path), and let `finally` clear the processing flag. -/
def completeRun (a : App) (sid : String) (saved : TeamState) : DriverResult :=
  let c1 :=
    if a.chat.current_session.isSome && !saved.isEmpty then
      a.chat.updateCurrent (fun c => { c with team_state := saved })
    else a.chat
  let tokens2 := { a.tokens with
    terminationConditions :=
      dictUpdate a.tokens.terminationConditions sid ExternalTermination.cancelHandle }
  let c2 := c1.updateCurrent fun c => { c with team_state := saved }
  .normal { a with chat := { c2 with is_processing := false }, tokens := tokens2 }

/-- Body of `start_chat` once a current session (id `sid`) is known. -/
def startChatRun (a : App) (sid : String) (tm : ExternalTermination)
    (tk : CancellationToken) : RunScript → DriverResult
  | .initRaised e => handleRaised (prepareRun a sid tm) e
  | .streamRun events outcome =>
      let a1 := prepareRun a sid tm
      let a2 := { a1 with
        chat := setInitialMessage a1.chat,
        tokens := a1.tokens.store_cancellation_token sid tk }
      let a3 := { a2 with chat := runStreamEvents a2.chat events }
      match outcome with
      | .raised e => handleRaised a3 e
      | .completed saved => completeRun a3 sid saved

/-- `ChatState.start_chat`: return untouched when there is no current
session, otherwise run the driver body for the current session's id. -/
def App.start_chat (a : App) (tm : ExternalTermination) (tk : CancellationToken)
    (script : RunScript) : DriverResult :=
  match a.chat.current_session with
  | none => .normal a
  | some cs => startChatRun a cs.id tm tk script

/-! ### The `get_user_input` polling callback

The callback's `while True` loop suspends between iterations; what it
observes each iteration (the mailbox slot, the registry's termination
condition, and any error raised by the environment inside the body) is
modelled as a finite schedule of `PollStep`s.  The state mutations of a
consuming iteration (clearing the mailbox, setting the processing flag) do
not affect the exception behaviour under scrutiny and are elided. -/

def sessionTerminatedMsg : String := "Session terminated"

def noSessionMsg : String := "No current session available"

structure PollStep where
  envRaise : Option PyExc := none
  mailbox : Option String := none
  terminated : Bool := false
  deriving Repr, DecidableEq

inductive LoopExit where
  | returned (msg : String)
  | raisedExc (e : PyExc)
  | pending
  deriving Repr, DecidableEq

/-- One iteration per step: an environment-raised error escapes the body; a
truthy mailbox value is returned; otherwise, if the stored termination
condition reports `terminated`, `asyncio.CancelledError("Session terminated")`
is raised; otherwise sleep and poll again. -/
def pollLoop : List PollStep → LoopExit
  | [] => .pending
  | step :: rest =>
      match step.envRaise with
      | some e => .raisedExc e
      | none =>
          match step.mailbox with
          | some msg =>
              if msg = "" then
                if step.terminated then .raisedExc (.cancelledError sessionTerminatedMsg)
                else pollLoop rest
              else .returned msg
          | none =>
              if step.terminated then .raisedExc (.cancelledError sessionTerminatedMsg)
              else pollLoop rest

inductive CallbackResult where
  | returns (v : Option String)
  | raises (e : PyExc)
  | polling
  deriving Repr, DecidableEq

/-- `get_user_input`: the pre-loop guard raises `ValueError` outside the
`try` block when no current session exists; the loop runs inside
`try ... except Exception`, whose handler only logs, after which control
falls off the end of the function and `None` is returned.
`asyncio.CancelledError` is not an `Exception` subclass and escapes. -/
def get_user_input (hasSession : Bool) (steps : List PollStep) : CallbackResult :=
  if !hasSession then .raises (.exc noSessionMsg)
  else
    match pollLoop steps with
    | .returned m => .returns (some m)
    | .raisedExc e => if e.isExceptionClass then .returns none else .raises e
    | .pending => .polling

/-! ### Helper lemmas -/

theorem getLast?_push {α : Type} (l : List α) (a : α) :
    (l ++ [a]).getLast? = some a := by
  rw [List.getLast?_append_cons]
  rfl

theorem current_session_set_processing (s : ChatState) (b : Bool) :
    ({ s with is_processing := b } : ChatState).current_session = s.current_session := rfl

theorem current_session_updateCurrent (s : ChatState) (f : ChatSession → ChatSession) :
    (s.updateCurrent f).current_session = s.current_session.map f := by
  simp [ChatState.updateCurrent, ChatState.current_session, dictGet_dictUpdate_self]

theorem current_session_add_message (s : ChatState) (m : Message) :
    (s.add_message_to_current_session m).current_session =
      s.current_session.map (fun c => { c with messages := c.messages ++ [m] }) := by
  unfold ChatState.add_message_to_current_session
  cases h : s.current_session with
  | none => simp [h]
  | some cs =>
      simp only [h, Option.map_some]
      simp [ChatState.current_session, dictGet_dictUpdate_self] at h ⊢
      simp [h]

theorem current_session_markStarted (s : ChatState) :
    s.markStarted.current_session =
      s.current_session.map (fun c => { c with is_initialized := true }) := by
  have : s.markStarted.current_session = (s.updateCurrent
      (fun c => { c with is_initialized := true })).current_session := rfl
  rw [this, current_session_updateCurrent]

theorem current_session_setInitialMessage (s : ChatState) :
    (setInitialMessage s).current_session =
      s.current_session.map (fun c => { c with initial_message := initialContent s }) := by
  unfold setInitialMessage
  rw [current_session_updateCurrent]

theorem processEvent_current_isSome (s : ChatState) (ev : StreamEvent) :
    (processEvent s ev).current_session.isSome = s.current_session.isSome := by
  cases ev with
  | taskResult => rfl
  | userInputRequested => rfl
  | agentMessage src cnt rep =>
      simp [processEvent, current_session_add_message]

theorem runStreamEvents_current_isSome (events : List StreamEvent) (s : ChatState) :
    (runStreamEvents s events).current_session.isSome = s.current_session.isSome := by
  induction events generalizing s with
  | nil => rfl
  | cons ev rest ih =>
      simp only [runStreamEvents, List.foldl_cons]
      rw [show (List.foldl processEvent (processEvent s ev) rest) =
        runStreamEvents (processEvent s ev) rest from rfl]
      rw [ih, processEvent_current_isSome]

/-- The `except Exception` branch of `start_chat` for an `Exception`-class
error: normal return, processing flag cleared, error message appended last. -/
theorem handleRaised_exc (a : App) (m : String)
    (h : a.chat.current_session.isSome = true) :
    (handleRaised a (.exc m)).isNormal = true ∧
    (handleRaised a (.exc m)).state.chat.is_processing = false ∧
    ((handleRaised a (.exc m)).state.chat.current_session.map
        (fun c => c.messages.getLast?)) = some (some (errorMessage m)) := by
  obtain ⟨cs, hcs⟩ := Option.isSome_iff_exists.mp h
  refine ⟨rfl, rfl, ?_⟩
  simp only [handleRaised, PyExc.isExceptionClass, if_true, DriverResult.state, PyExc.msg]
  rw [current_session_set_processing, current_session_add_message, hcs]
  simp [getLast?_push]

/-! ### Concrete states used by witnesses and counterexamples -/

def session1 : ChatSession := { id := "s1", name := "New Chat" }

def session2 : ChatSession := { id := "s2", name := "Other" }

/-- An application state with a single session `s1`, which is current. -/
def app1 : App := { chat := { chat_sessions := [("s1", session1)], current_chat_id := "s1" } }

/-- An application state with two sessions `s1` (current) and `s2`. -/
def app2 : App :=
  { chat := { chat_sessions := [("s1", session1), ("s2", session2)], current_chat_id := "s1" } }

/-! ### Claims -/

/-- Claim C8: for every session id with no registered cancellation or
termination handle, `cancel_session` and `terminate_session` are safe
no-ops: they return `False` without raising and leave the registry
unchanged (the embedding is total, mirroring that neither method can
throw on an unknown id). -/
theorem registry_missing_handle_noop (m : TokenManager) (id : String)
    (h1 : m.get_cancellation_token id = none)
    (h2 : m.get_termination_condition id = none) :
    m.cancel_session id = (m, false) ∧ m.terminate_session id = (m, false) := by
  constructor
  · simp only [TokenManager.get_cancellation_token] at h1
    simp [TokenManager.cancel_session, h1]
  · simp only [TokenManager.get_termination_condition] at h2
    simp [TokenManager.terminate_session, h2]

/-- Witness for claim C8 at the empty registry. -/
theorem registry_missing_handle_noop_witness :
    ({} : TokenManager).get_cancellation_token "s1" = none ∧
    ({} : TokenManager).get_termination_condition "s1" = none ∧
    (({} : TokenManager).cancel_session "s1" = ({}, false) ∧
     ({} : TokenManager).terminate_session "s1" = ({}, false)) :=
  ⟨by decide, by decide, registry_missing_handle_noop {} "s1" (by decide) (by decide)⟩

/-- Claim C9: storing a handle under an id overwrites without error (last
write wins) and a subsequent get returns exactly the most recently stored
handle, for both handle kinds; removal is idempotent. -/
theorem registry_store_overwrite_remove_idem (m : TokenManager) (id : String)
    (t1 t2 : CancellationToken) (e1 e2 : ExternalTermination) :
    ((m.store_cancellation_token id t1).store_cancellation_token id t2).get_cancellation_token id
        = some t2 ∧
    ((m.store_termination_condition id e1).store_termination_condition id e2).get_termination_condition id
        = some e2 ∧
    (m.remove_cancellation_token id).remove_cancellation_token id
        = m.remove_cancellation_token id ∧
    (m.remove_termination_condition id).remove_termination_condition id
        = m.remove_termination_condition id := by
  refine ⟨?_, ?_, ?_, ?_⟩
  · simp [TokenManager.store_cancellation_token, TokenManager.get_cancellation_token,
      dictGet_dictSet_self]
  · simp [TokenManager.store_termination_condition, TokenManager.get_termination_condition,
      dictGet_dictSet_self]
  · by_cases hc : (dictGet m.cancellationTokens id).isSome
    · simp [TokenManager.remove_cancellation_token, hc, dictGet_dictErase_self]
    · simp [TokenManager.remove_cancellation_token, hc]
  · by_cases hc : (dictGet m.terminationConditions id).isSome
    · simp [TokenManager.remove_termination_condition, hc, dictGet_dictErase_self]
    · simp [TokenManager.remove_termination_condition, hc]

/-- Claim C6: `switch_chat` and `delete_chat` on an id not present in the
session map are rejected locally: the whole application state (sessions,
current pointer, messages, registry maps and the registry call trace) is
returned unchanged, and the embedding is total (no exception crosses the
boundary). -/
theorem unknown_id_rejected (a : App) (id : String)
    (h : dictGet a.chat.chat_sessions id = none) :
    a.switch_chat id = a ∧ a.delete_chat id = a := by
  constructor
  · simp [App.switch_chat, h]
  · simp [App.delete_chat, h]

/-- Witness for claim C6 at a state with one session `s1` and the unknown id `zz`. -/
theorem unknown_id_rejected_witness :
    dictGet app1.chat.chat_sessions "zz" = none ∧
    (app1.switch_chat "zz" = app1 ∧ app1.delete_chat "zz" = app1) :=
  ⟨by decide, unknown_id_rejected app1 "zz" (by decide)⟩

/-- Claim C10: an `Exception`-class error raised inside the polling loop of
`get_user_input` is caught by the `except Exception` clause, after which the
callback returns `None` (it neither returns a user message nor propagates
the error); the `asyncio.CancelledError` raised on observed termination is
not an `Exception` subclass and escapes the callback. -/
theorem user_input_exception_handling (steps : List PollStep) (m : String) :
    (pollLoop steps = .raisedExc (.exc m) →
      get_user_input true steps = .returns none) ∧
    (pollLoop steps = .raisedExc (.cancelledError m) →
      get_user_input true steps = .raises (.cancelledError m)) := by
  constructor
  · intro h
    simp [get_user_input, h, PyExc.isExceptionClass]
  · intro h
    simp [get_user_input, h, PyExc.isExceptionClass]

/-- Witness for claim C10: a schedule whose body raises `RuntimeError`-like
`boom` makes the callback return `None`; a schedule that observes
termination raises the cancellation signal out of the callback. -/
theorem user_input_exception_handling_witness :
    get_user_input true [{ envRaise := some (PyExc.exc "boom") }] = .returns none ∧
    get_user_input true [{ terminated := true }]
      = .raises (.cancelledError sessionTerminatedMsg) :=
  ⟨(user_input_exception_handling [{ envRaise := some (PyExc.exc "boom") }] "boom").1 (by decide),
   (user_input_exception_handling [{ terminated := true }] sessionTerminatedMsg).2 (by decide)⟩

/-- Claim C1 (code bug in `delete_chat`): deleting the current session when
it is the last one does NOT leave a session current.  The source sets
`current_chat_id = ""` and then calls `self.create_chat()` without `await`;
`create_chat` is async, the coroutine is never run, and — contrary to the
adjacent comment "Create a new session if we deleted the last one" — no
fresh session is created.  Evaluating the embedding at that failing input:
the session map ends empty and no session is current. -/
theorem delete_current_last_session_leaves_no_current :
    (app1.delete_chat "s1").chat.chat_sessions = [] ∧
    (app1.delete_chat "s1").chat.current_chat_id = "" ∧
    (app1.delete_chat "s1").chat.current_session = none := by decide

/-- Claim C3: for each item emitted by the streaming run, the loop body of
`start_chat` skips a `TaskResult` (state unchanged, nothing appended),
handles a `UserInputRequestedEvent` by clearing the processing flag only,
and converts every other event into a `Message` — content and source
extracted from the event with `getattr` defaults — appended to the current
session's message list. -/
theorem stream_event_handling (s : ChatState) (cs : ChatSession)
    (h : s.current_session = some cs) :
    processEvent s .taskResult = s ∧
    processEvent s .userInputRequested = { s with is_processing := false } ∧
    ∀ src cnt rep, (processEvent s (.agentMessage src cnt rep)).current_session =
      some { cs with messages := cs.messages ++
        [{ source := src.getD "system", content := cnt.getD rep }] } := by
  refine ⟨rfl, rfl, ?_⟩
  intro src cnt rep
  simp only [processEvent]
  rw [current_session_add_message, h]
  rfl

/-- Witness for claim C3 at a one-session state and a `yoda` event. -/
theorem stream_event_handling_witness :
    app1.chat.current_session = some session1 ∧
    processEvent app1.chat .taskResult = app1.chat ∧
    (processEvent app1.chat (.agentMessage (some "yoda") (some "hi") "repr")).current_session =
      some { session1 with messages := session1.messages ++
        [{ source := "yoda", content := "hi" }] } :=
  ⟨by decide, (stream_event_handling app1.chat session1 (by decide)).1,
   (stream_event_handling app1.chat session1 (by decide)).2.2 (some "yoda") (some "hi") "repr"⟩

theorem current_session_set_user_message (s : ChatState) (v : String) :
    (s.set_user_message v).current_session = s.current_session := rfl

theorem current_session_clear_user_message (s : ChatState) :
    ({ s with user_message := "" } : ChatState).current_session = s.current_session := rfl

/-- `submit_message` on a state with a current session: it succeeds and the
current session afterwards carries the typed message in its single-slot
mailbox and appended to its message list. -/
theorem submit_message_current (s : ChatState) (cs : ChatSession)
    (h : s.current_session = some cs) :
    ∃ s1, s.submit_message = some s1 ∧
      s1.current_session = some { cs with
        submitted_message := some s.user_message,
        messages := cs.messages ++ [{ source := "user", content := s.user_message }] } := by
  simp only [ChatState.submit_message, h]
  refine ⟨_, rfl, ?_⟩
  rw [current_session_clear_user_message, current_session_add_message,
    current_session_set_processing, current_session_updateCurrent, h]
  rfl

/-- Claim C5: the mailbox is the single field `submitted_message` of the
session record (an `Option String`), so it holds at most one pending
message by construction; submitting a second message before the first is
consumed overwrites the slot — after the second submission the mailbox
holds exactly the second message. -/
theorem mailbox_last_write_wins (s : ChatState) (cs : ChatSession)
    (h : s.current_session = some cs) (m1 m2 : String) :
    ∃ s1 s2, (s.set_user_message m1).submit_message = some s1 ∧
      (s1.current_session.map fun c => c.submitted_message) = some (some m1) ∧
      (s1.set_user_message m2).submit_message = some s2 ∧
      (s2.current_session.map fun c => c.submitted_message) = some (some m2) := by
  have h1 : (s.set_user_message m1).current_session = some cs := by
    rw [current_session_set_user_message, h]
  obtain ⟨s1, hs1, hc1⟩ := submit_message_current (s.set_user_message m1) cs h1
  have h2 : (s1.set_user_message m2).current_session = some { cs with
      submitted_message := some (s.set_user_message m1).user_message,
      messages := cs.messages ++
        [{ source := "user", content := (s.set_user_message m1).user_message }] } := by
    rw [current_session_set_user_message, hc1]
  obtain ⟨s2, hs2, hc2⟩ := submit_message_current (s1.set_user_message m2) _ h2
  refine ⟨s1, s2, hs1, ?_, hs2, ?_⟩
  · rw [hc1]
    rfl
  · rw [hc2]
    rfl

/-- Witness for claim C5 at a one-session state with messages `one`, `two`. -/
theorem mailbox_last_write_wins_witness :
    app1.chat.current_session = some session1 ∧
    (∃ s1 s2, (app1.chat.set_user_message "one").submit_message = some s1 ∧
      (s1.current_session.map fun c => c.submitted_message) = some (some "one") ∧
      (s1.set_user_message "two").submit_message = some s2 ∧
      (s2.current_session.map fun c => c.submitted_message) = some (some "two")) :=
  ⟨by decide, mailbox_last_write_wins app1.chat session1 (by decide) "one" "two"⟩

/-- Claim C7: `switch_chat` to a known, non-current id first requests
graceful termination of the current session's run, then immediate
cancellation, in that order (visible in the registry call trace), and only
then installs the new id as current; `delete_chat` of a known id issues the
same terminate-then-cancel pair (then releases the registry entries) before
removing the session from the map. -/
theorem switch_delete_terminate_then_cancel (a : App) (id : String) (cs : ChatSession)
    (hid : (dictGet a.chat.chat_sessions id).isSome = true)
    (hne : ¬ id = a.chat.current_chat_id)
    (hcur : a.chat.current_session = some cs) :
    ((a.switch_chat id).events
        = a.events ++ [RegEvent.terminateReq cs.id, RegEvent.cancelReq cs.id] ∧
     (a.switch_chat id).chat.current_chat_id = id) ∧
    ((a.delete_chat id).events
        = a.events ++ [RegEvent.terminateReq id, RegEvent.cancelReq id,
            RegEvent.removeTermination id, RegEvent.removeCancellation id] ∧
     dictGet (a.delete_chat id).chat.chat_sessions id = none) := by
  obtain ⟨v, hv⟩ := Option.isSome_iff_exists.mp hid
  refine ⟨⟨?_, ?_⟩, ?_, ?_⟩
  · simp [App.switch_chat, hv, hne, hcur, App.terminate_session, App.cancel_session]
  · simp [App.switch_chat, hv, hne, hcur, App.terminate_session, App.cancel_session]
  · simp [App.delete_chat, hv, App.terminate_session, App.cancel_session,
      App.remove_termination_condition, App.remove_cancellation_token]
  · simp only [App.delete_chat, hv, Option.isSome_some, Option.isNone_some,
      Bool.false_eq_true, if_false]
    split
    · split <;> simp [App.terminate_session, App.cancel_session,
        App.remove_termination_condition, App.remove_cancellation_token,
        dictGet_dictErase_self]
    · simp [App.terminate_session, App.cancel_session,
        App.remove_termination_condition, App.remove_cancellation_token,
        dictGet_dictErase_self]

/-- Witness for claim C7: two sessions, `s1` current, switching to /
deleting `s2`. -/
theorem switch_delete_terminate_then_cancel_witness :
    (dictGet app2.chat.chat_sessions "s2").isSome = true ∧
    (¬ "s2" = app2.chat.current_chat_id) ∧
    app2.chat.current_session = some session1 ∧
    (((app2.switch_chat "s2").events
        = app2.events ++ [RegEvent.terminateReq "s1", RegEvent.cancelReq "s1"] ∧
      (app2.switch_chat "s2").chat.current_chat_id = "s2") ∧
     ((app2.delete_chat "s2").events
        = app2.events ++ [RegEvent.terminateReq "s2", RegEvent.cancelReq "s2",
            RegEvent.removeTermination "s2", RegEvent.removeCancellation "s2"] ∧
      dictGet (app2.delete_chat "s2").chat.chat_sessions "s2" = none)) :=
  ⟨by decide, by decide, by decide,
   switch_delete_terminate_then_cancel app2 "s2" session1 (by decide) (by decide) (by decide)⟩

theorem start_chat_reduce (a : App) (cs : ChatSession)
    (h : a.chat.current_session = some cs) (tm : ExternalTermination)
    (tk : CancellationToken) (script : RunScript) :
    a.start_chat tm tk script = startChatRun a cs.id tm tk script := by
  simp [App.start_chat, h]

/-- Claim C4: an `Exception`-class error raised at any point of a driver
run — whether inside `get_team` (before the stream starts) or while
consuming the stream — is caught by `start_chat`'s `except Exception`
clause: a system-sourced `Message` describing the error is appended to the
session, the processing flag is false when the driver returns, and the
driver returns normally (no exception propagates past its boundary).
`asyncio.CancelledError` is classified by the spec as cancellation, not
failure; it is modelled separately (`PyExc.cancelledError`) and, matching
the Python class hierarchy, is the one raise the clause does not catch. -/
theorem start_chat_failure_contained (a : App) (cs : ChatSession)
    (h : a.chat.current_session = some cs)
    (tm : ExternalTermination) (tk : CancellationToken)
    (err : String) (events : List StreamEvent) :
    ((a.start_chat tm tk (.initRaised (.exc err))).isNormal = true ∧
     (a.start_chat tm tk (.initRaised (.exc err))).state.chat.is_processing = false ∧
     ((a.start_chat tm tk (.initRaised (.exc err))).state.chat.current_session.map
        (fun c => c.messages.getLast?)) = some (some (errorMessage err))) ∧
    ((a.start_chat tm tk (.streamRun events (.raised (.exc err)))).isNormal = true ∧
     (a.start_chat tm tk (.streamRun events (.raised (.exc err)))).state.chat.is_processing = false ∧
     ((a.start_chat tm tk (.streamRun events (.raised (.exc err)))).state.chat.current_session.map
        (fun c => c.messages.getLast?)) = some (some (errorMessage err))) := by
  constructor
  · rw [start_chat_reduce a cs h]
    simp only [startChatRun]
    refine handleRaised_exc _ err ?_
    show (a.chat.markStarted).current_session.isSome = true
    rw [current_session_markStarted, h]
    rfl
  · rw [start_chat_reduce a cs h]
    simp only [startChatRun]
    refine handleRaised_exc _ err ?_
    show (runStreamEvents (setInitialMessage a.chat.markStarted) events).current_session.isSome = true
    rw [runStreamEvents_current_isSome, current_session_setInitialMessage,
      current_session_markStarted, h]
    rfl

/-- Witness for claim C4: a one-session state, with a `get_team` failure and
with a stream failure after one yielded event. -/
theorem start_chat_failure_contained_witness :
    app1.chat.current_session = some session1 ∧
    (((app1.start_chat {} {} (.initRaised (.exc "boom"))).isNormal = true ∧
      (app1.start_chat {} {} (.initRaised (.exc "boom"))).state.chat.is_processing = false ∧
      ((app1.start_chat {} {} (.initRaised (.exc "boom"))).state.chat.current_session.map
         (fun c => c.messages.getLast?)) = some (some (errorMessage "boom"))) ∧
     ((app1.start_chat {} {} (.streamRun [.taskResult] (.raised (.exc "boom")))).isNormal = true ∧
      (app1.start_chat {} {} (.streamRun [.taskResult] (.raised (.exc "boom")))).state.chat.is_processing = false ∧
      ((app1.start_chat {} {} (.streamRun [.taskResult] (.raised (.exc "boom")))).state.chat.current_session.map
         (fun c => c.messages.getLast?)) = some (some (errorMessage "boom")))) :=
  ⟨by decide, start_chat_failure_contained app1 session1 (by decide) {} {} "boom" [.taskResult]⟩

/-- The normal-completion tail of the driver: it returns normally, the
current session ends up holding the saved continuation state, and the
registry maps keep exactly their key sets — the termination entry is only
mutated in place by `termination.cancel()`, the cancellation map is
untouched. -/
theorem completeRun_spec (a : App) (sid : String) (saved : TeamState)
    (h : a.chat.current_session.isSome = true) :
    (completeRun a sid saved).isNormal = true ∧
    ((completeRun a sid saved).state.chat.current_session.map
        ChatSession.team_state) = some saved ∧
    (completeRun a sid saved).state.tokens.terminationConditions =
      dictUpdate a.tokens.terminationConditions sid ExternalTermination.cancelHandle ∧
    (completeRun a sid saved).state.tokens.cancellationTokens = a.tokens.cancellationTokens := by
  obtain ⟨y, hy⟩ := Option.isSome_iff_exists.mp h
  refine ⟨rfl, ?_, rfl, rfl⟩
  simp only [completeRun, DriverResult.state]
  rw [current_session_set_processing, current_session_updateCurrent]
  by_cases hc : (a.chat.current_session.isSome && !saved.isEmpty) = true
  · simp only [hc, if_true]
    rw [current_session_updateCurrent, hy]
    rfl
  · simp only [hc, Bool.false_eq_true, if_false]
    rw [hy]
    rfl

/-- Claim C2 as amended: on normal stream completion the driver saves the
library's continuation state into the session and returns normally, but it
does NOT release the registry entries — the termination handle and the
cancellation handle stored under the session id are still returned by a
subsequent registry get (they are only removed when the session is
deleted). -/
theorem start_chat_completion_saves_state_keeps_handles (a : App) (cs : ChatSession)
    (h : a.chat.current_session = some cs)
    (tm : ExternalTermination) (tk : CancellationToken)
    (events : List StreamEvent) (saved : TeamState) :
    (a.start_chat tm tk (.streamRun events (.completed saved))).isNormal = true ∧
    ((a.start_chat tm tk (.streamRun events (.completed saved))).state.chat.current_session.map
        ChatSession.team_state) = some saved ∧
    ((a.start_chat tm tk
        (.streamRun events (.completed saved))).state.tokens.get_termination_condition cs.id).isSome
      = true ∧
    ((a.start_chat tm tk
        (.streamRun events (.completed saved))).state.tokens.get_cancellation_token cs.id).isSome
      = true := by
  rw [start_chat_reduce a cs h]
  simp only [startChatRun]
  obtain ⟨h1, h2, h3, h4⟩ := completeRun_spec
    { chat := runStreamEvents (setInitialMessage (prepareRun a cs.id tm).chat) events,
      tokens := (prepareRun a cs.id tm).tokens.store_cancellation_token cs.id tk,
      events := (prepareRun a cs.id tm).events } cs.id saved (by
        show (runStreamEvents (setInitialMessage a.chat.markStarted) events).current_session.isSome = true
        rw [runStreamEvents_current_isSome, current_session_setInitialMessage,
          current_session_markStarted, h]
        rfl)
  refine ⟨h1, h2, ?_, ?_⟩
  · simp only [TokenManager.get_termination_condition, h3]
    show (dictGet (dictUpdate
        (dictSet a.tokens.terminationConditions cs.id tm) cs.id
        ExternalTermination.cancelHandle) cs.id).isSome = true
    rw [dictGet_dictUpdate_self, dictGet_dictSet_self]
    rfl
  · simp only [TokenManager.get_cancellation_token, h4]
    show (dictGet (dictSet a.tokens.cancellationTokens cs.id tk) cs.id).isSome = true
    rw [dictGet_dictSet_self]
    rfl

/-- The driver result of a concrete completed run on the one-session state. -/
def completedRun : DriverResult :=
  app1.start_chat {} {} (.streamRun [] (.completed [("k", "v")]))

/-- Counterexample to claim C2 as stated: after a run on session `s1`
reaches normal stream completion, a registry get for `s1` still returns
both handles — it does not report "no active run".  `start_chat`'s
completion path never calls `remove_termination_condition` /
`remove_cancellation_token`. -/
theorem run_completion_keeps_handles_cx :
    (completedRun.state.tokens.get_termination_condition "s1").isSome = true ∧
    (completedRun.state.tokens.get_cancellation_token "s1").isSome = true := by decide

/-- Witness for the amended claim C2 at a concrete completed run. -/
theorem start_chat_completion_saves_state_keeps_handles_witness :
    app1.chat.current_session = some session1 ∧
    ((app1.start_chat {} {} (.streamRun [] (.completed [("k", "v")]))).isNormal = true ∧
     ((app1.start_chat {} {} (.streamRun [] (.completed [("k", "v")]))).state.chat.current_session.map
        ChatSession.team_state) = some [("k", "v")] ∧
     ((app1.start_chat {} {}
        (.streamRun [] (.completed [("k", "v")]))).state.tokens.get_termination_condition "s1").isSome
       = true ∧
     ((app1.start_chat {} {}
        (.streamRun [] (.completed [("k", "v")]))).state.tokens.get_cancellation_token "s1").isSome
       = true) :=
  ⟨by decide,
   start_chat_completion_saves_state_keeps_handles app1 session1 (by decide) {} {} [] [("k", "v")]⟩

end ReflexChat
